import Mathlib

/-
  Verification development for the SEV-SNP attestation verification tool
  (src/verify_attestation.rs).

  The Rust source is shallowly embedded below.  Machine bytes are Nat with
  explicit reduction modulo 256 where overflow matters; fallible library
  calls are Except values; a Rust run-time abort (unwrap of an error, or an
  explicit abort with a message) is the RustResult.panic outcome, which is
  distinct from every normal return.

  The cryptographic verification performed by the sev/openssl dependencies,
  and the contents of the data files (Genoa.pem, the sample report, the
  sample VCEK) are not part of src/; they are modelled symbolically from the
  spec (sections 4.2, 4.4, 6 and 8), each such definition carrying a
  doc comment saying so.
-/

set_option maxHeartbeats 1000000
set_option maxRecDepth 4000

namespace SevAttest

/-- A firmware version bundle (TCB).  In the source this is the sev crate's
TcbVersion with four u8 components. -/
structure TcbVersion where
  bootloader : Nat
  tee : Nat
  snp : Nat
  microcode : Nat
deriving DecidableEq

/-- Symbolic content of an X509 certificate: its subject public key and, for
a leaf (VCEK), the hardware id and TCB bound into its extensions. -/
structure CertData where
  pubkey : Nat
  hwId : List Nat
  tcb : TcbVersion
deriving DecidableEq

/-- Symbolic certificate: its data, together with the key that produced its
signature and the payload that was signed. -/
structure Certificate where
  data : CertData
  sigKey : Nat
  signedPayload : CertData
deriving DecidableEq

/-- The attestation report, restricted to the fields the source reads:
measurement ([u8; 48]), chip_id ([u8; 64]), reported_tcb, plus the
signature-algorithm tag and the symbolic signature over the other fields. -/
structure AttestationReport where
  measurement : List Nat
  chip_id : List Nat
  reported_tcb : TcbVersion
  signature_algo : Nat
  signature : Nat × (List Nat × List Nat × TcbVersion × Nat)
deriving DecidableEq

/-- The ca::Chain of the sev crate: ARK (root) and ASK (intermediate). -/
structure CaChain where
  ark : Certificate
  ask : Certificate
deriving DecidableEq

/-- The full snp Chain: ca chain plus the VCEK leaf certificate. -/
structure FullChain where
  ca : CaChain
  vcek : Certificate
deriving DecidableEq

/-- Typed failure reasons of chain validation and report authentication
(spec sections 4.2, 4.4 and 7). -/
inductive VerifyError where
  | RootSelfSignFailed
  | IntermediateSignatureInvalid
  | LeafSignatureInvalid
  | UnsupportedAlgorithm
  | SignatureInvalid
  | HardwareIdentifierMismatch
  | FirmwareVersionMismatch
deriving DecidableEq

/-- Typed parse failures (spec section 4.3). -/
inductive ParseError where
  | malformed
  | truncated
  | unsupportedVersion
deriving DecidableEq

/-- Payload of a Rust run-time abort: either an explicit message, or the
Debug rendering of a typed error that was unwrapped. -/
inductive PanicInfo where
  | msg : String → PanicInfo
  | unwrapErr : VerifyError → PanicInfo
  | parseErr : ParseError → PanicInfo
deriving DecidableEq

/-- Outcome of running a Rust function: a normal return, or a run-time
abort carrying its payload.  The two are distinct values. -/
inductive RustResult (α : Type) where
  | ok : α → RustResult α
  | panic : PanicInfo → RustResult α
deriving DecidableEq

/-- Spec section 3: the verification outcome sum type, written from the
spec's words for comparison with the code's behaviour. -/
inductive VerificationResult where
  | Verified
  | Rejected : VerifyError → VerificationResult
deriving DecidableEq

/-- Map a typed verification outcome to the spec's VerificationResult. -/
def toResult : Except VerifyError Unit → VerificationResult
  | .ok _ => .Verified
  | .error e => .Rejected e

/-- The AMD SEV-SNP product name for Genoa (source constant SEV_PROD_NAME). -/
def SEV_PROD_NAME : String := "Genoa"

/-- The AMD Key Distribution Service URL (source constant KDS_CERT_SITE). -/
def KDS_CERT_SITE : String := "https://kdsintf.amd.com"

/-- The KDS VCEK endpoint path (source constant KDS_VCEK). -/
def KDS_VCEK : String := "/vcek/v1"

/-- Modelled from the spec: symbolic signature validity of a certificate
against its issuer (the issuer's key signed exactly the certificate's own
data), standing in for the openssl signature check used by the sev crate. -/
def certSignedBy (c issuer : Certificate) : Prop :=
  c.sigKey = issuer.data.pubkey ∧ c.signedPayload = c.data

instance (c issuer : Certificate) : Decidable (certSignedBy c issuer) :=
  inferInstanceAs (Decidable (c.sigKey = issuer.data.pubkey ∧ c.signedPayload = c.data))

/-- The single signature algorithm tag the verifier accepts (ECDSA P-384 in
the sev crate). -/
def ECDSA_P384_ALGO : Nat := 1

/-- The canonical signed byte range of a report: every field except the
signature itself. -/
def reportSignedData (r : AttestationReport) : List Nat × List Nat × TcbVersion × Nat :=
  (r.measurement, r.chip_id, r.reported_tcb, r.signature_algo)

/-- Component-wise order on firmware version bundles (spec section 3). -/
def tcbLe (a b : TcbVersion) : Prop :=
  a.bootloader ≤ b.bootloader ∧ a.tee ≤ b.tee ∧ a.snp ≤ b.snp ∧ a.microcode ≤ b.microcode

instance (a b : TcbVersion) : Decidable (tcbLe a b) :=
  inferInstanceAs (Decidable (_ ∧ _ ∧ _ ∧ _))

/-- Modelled from the spec: the sev crate's (&Chain, &AttestationReport)
verification, sections 4.2 and 4.4 — validate ARK self-signature, ASK
against ARK, VCEK against ASK, then authenticate the report against the
VCEK: algorithm supported, signature over the canonical byte range, hardware
id equal to the one bound in the leaf, claimed TCB component-wise at most
the endorsed one.  First failing check decides the error. -/
def chainReportVerify (ch : FullChain) (r : AttestationReport) : Except VerifyError Unit :=
  if ¬ certSignedBy ch.ca.ark ch.ca.ark then .error .RootSelfSignFailed
  else if ¬ certSignedBy ch.ca.ask ch.ca.ark then .error .IntermediateSignatureInvalid
  else if ¬ certSignedBy ch.vcek ch.ca.ask then .error .LeafSignatureInvalid
  else if ¬ (r.signature_algo = ECDSA_P384_ALGO) then .error .UnsupportedAlgorithm
  else if ¬ (r.signature = (ch.vcek.data.pubkey, reportSignedData r)) then .error .SignatureInvalid
  else if ¬ (r.chip_id = ch.vcek.data.hwId) then .error .HardwareIdentifierMismatch
  else if ¬ tcbLe r.reported_tcb ch.vcek.data.tcb then .error .FirmwareVersionMismatch
  else .ok ()

/-- Modelled from the spec: symbolic key of the AMD Root Key. -/
def arkKey : Nat := 1

/-- Modelled from the spec: symbolic key of the AMD SEV Key (intermediate). -/
def askKey : Nat := 2

/-- Modelled from the spec: symbolic key of the sample VCEK. -/
def vcekKey : Nat := 3

/-- Placeholder TCB for the CA certificates, which bind no TCB. -/
def zeroTcb : TcbVersion := ⟨0, 0, 0, 0⟩

/-- Modelled from the spec: the self-signed AMD root certificate (ARK)
contained in the Genoa.pem data file. -/
def arkCert : Certificate :=
  { data := ⟨arkKey, [], zeroTcb⟩, sigKey := arkKey, signedPayload := ⟨arkKey, [], zeroTcb⟩ }

/-- Modelled from the spec: the intermediate certificate (ASK), signed by
the ARK, contained in the Genoa.pem data file. -/
def askCert : Certificate :=
  { data := ⟨askKey, [], zeroTcb⟩, sigKey := arkKey, signedPayload := ⟨askKey, [], zeroTcb⟩ }

/-- Modelled from the spec: hardware id of the sample report and VCEK. -/
def sampleChipId : List Nat := List.replicate 64 5

/-- Modelled from the spec: TCB of the sample report and VCEK. -/
def sampleTcb : TcbVersion := ⟨3, 0, 8, 84⟩

/-- Modelled from the spec: the sample VCEK (data/sample_vcek.crt), a leaf
certificate signed by the ASK and binding the sample chip id and TCB. -/
def sampleVcek : Certificate :=
  { data := ⟨vcekKey, sampleChipId, sampleTcb⟩
    sigKey := askKey
    signedPayload := ⟨vcekKey, sampleChipId, sampleTcb⟩ }

/-- Modelled from the spec: measurement of the sample report. -/
def sampleMeasurement : List Nat := List.replicate 48 7

/-- Modelled from the spec: the known-good sample attestation report
(data/sample_attestation_report.json), honestly signed by the sample VCEK. -/
def sampleReport : AttestationReport :=
  { measurement := sampleMeasurement
    chip_id := sampleChipId
    reported_tcb := sampleTcb
    signature_algo := ECDSA_P384_ALGO
    signature := (vcekKey, (sampleMeasurement, sampleChipId, sampleTcb, ECDSA_P384_ALGO)) }

/-- Modelled from the spec: the Genoa.pem data file (not under src/), a
vendor-distributed bundle of exactly two certificates in the documented
order [intermediate (ASK), root (ARK)] (spec section 6). -/
def GENOA_PEM : List Certificate := [askCert, arkCert]

/-- Source get_cert_chain, generalised over the parsed PEM stack: abort if
the product is not Genoa, else take entry 1 as the ARK and entry 0 as the
ASK (the PEM re-encoding round trip of the source is the identity here).
Missing entries abort, as the Rust indexing would. -/
def get_cert_chain_of (pem : List Certificate) (sev_prod_name : String) : RustResult CaChain :=
  if sev_prod_name ≠ SEV_PROD_NAME then
    .panic (.msg ("Only Genoa is supported at this time"))
  else
    match pem[1]?, pem[0]? with
    | some ark, some ask => .ok ⟨ark, ask⟩
    | _, _ => .panic (.msg ("index out of bounds"))

/-- Source get_cert_chain: the compiled-in GENOA_PEM bundle. -/
def get_cert_chain (sev_prod_name : String) : RustResult CaChain :=
  get_cert_chain_of GENOA_PEM sev_prod_name

/-- The ca chain produced from the Genoa bundle: ARK from entry 1, ASK
from entry 0. -/
def genoaCa : CaChain := ⟨arkCert, askCert⟩

/-- The fail_on_purpose perturbation inside verify_attestation_report_raw:
with the flag set, a new report whose first measurement byte is incremented
with wrapping (u8 wrapping_add 1); without it, the report unchanged. -/
def tamper (fail_on_purpose : Bool) (r : AttestationReport) : AttestationReport :=
  if fail_on_purpose then
    { r with measurement := r.measurement.set 0 ((r.measurement.getD 0 0 + 1) % 256) }
  else r

/-- Source verify_attestation_report_raw, generalised over the PEM bundle:
perturb if asked, load the ca chain (can abort), build the full chain,
verify, and unwrap the result — a failed verification aborts with the typed
error as payload. -/
def verify_raw_of (pem : List Certificate) (report : AttestationReport)
    (vcek : Certificate) (fail_on_purpose : Bool) : RustResult Unit :=
  match get_cert_chain_of pem SEV_PROD_NAME with
  | .panic m => .panic m
  | .ok cert_chain =>
    match chainReportVerify ⟨cert_chain, vcek⟩ (tamper fail_on_purpose report) with
    | .ok _ => .ok ()
    | .error e => .panic (.unwrapErr e)

/-- Source verify_attestation_report_raw with the compiled-in bundle. -/
def verify_attestation_report_raw (report : AttestationReport) (vcek : Certificate)
    (fail_on_purpose : Bool) : RustResult Unit :=
  verify_raw_of GENOA_PEM report vcek fail_on_purpose

/-- Source verify_attestation_report.  The report JSON deserialization and
the DER certificate parse are out-of-scope boundaries (spec section 1), so
they are parameters producing a value or a typed parse failure; the source
unwraps both results, so a parse failure aborts the call. -/
def verify_attestation_report
    (parse_report : String → Except ParseError AttestationReport)
    (cert_from_der : List Nat → Except ParseError Certificate)
    (report_json : String) (vcek_bytes : List Nat) (fail_on_purpose : Bool) :
    RustResult Unit :=
  match parse_report report_json with
  | .error e => .panic (.parseErr e)
  | .ok report =>
    match cert_from_der vcek_bytes with
    | .error e => .panic (.parseErr e)
    | .ok vcek => verify_attestation_report_raw report vcek fail_on_purpose

/-- Lower-case hex digit, as produced by the hex crate. -/
def hexDigit (n : Nat) : Char :=
  if n < 10 then Char.ofNat (48 + n) else Char.ofNat (87 + n)

/-- One byte as two lower-case hex characters. -/
def hexByte (b : Nat) : List Char := [hexDigit (b / 16), hexDigit (b % 16)]

/-- hex::encode of a byte string: lower-case hex, two characters per byte. -/
def hexEncode (bytes : List Nat) : String := String.mk (bytes.map hexByte).flatten

/-- Rust format specifier 02 on an unsigned integer: decimal rendering,
zero-filled to a minimum width of two (wider values keep all digits). -/
def pad2 (n : Nat) : String := if n < 10 then "0" ++ toString n else toString n

/-- The URL built by source request_vcek from the chip id, the reported TCB
and the product name. -/
def request_vcek_url (chip_id : List Nat) (reported_tcb : TcbVersion)
    (sev_prod_name : String) : String :=
  KDS_CERT_SITE ++ KDS_VCEK ++ "/" ++ sev_prod_name ++ "/" ++ hexEncode chip_id
    ++ "?blSPL=" ++ pad2 reported_tcb.bootloader
    ++ "&teeSPL=" ++ pad2 reported_tcb.tee
    ++ "&snpSPL=" ++ pad2 reported_tcb.snp
    ++ "&ucodeSPL=" ++ pad2 reported_tcb.microcode

/-- Source request_vcek.  The network is the out-of-scope boundary (spec
section 1), a parameter mapping a URL to a response body or a transport
failure.  The first component is the call's outcome (a failed transport is
unwrapped, hence aborts); the second lists the network requests the call
issued, in order. -/
def request_vcek (net : String → Option (List Nat)) (chip_id : List Nat)
    (reported_tcb : TcbVersion) (sev_prod_name : String) :
    RustResult (List Nat) × List String :=
  let url := request_vcek_url chip_id reported_tcb sev_prod_name
  match net url with
  | some bytes => (.ok bytes, [url])
  | none => (.panic (.msg ("request failed")), [url])

/-- Following the spec's words (section 6): a two-digit zero-padded decimal
rendering — exactly a tens digit and a ones digit.  Faithful to the spec
only for values up to 99. -/
def spec_two_digit (n : Nat) : String :=
  String.mk [Char.ofNat (48 + n / 10), Char.ofNat (48 + n % 10)]

/-- Following the spec's words (section 6): the documented VCEK fetch URL
template, with each firmware component rendered as a two-digit zero-padded
decimal. -/
def spec_vcek_url (product : String) (hw : List Nat) (tcb : TcbVersion) : String :=
  "https://kdsintf.amd.com" ++ "/vcek/v1" ++ "/" ++ product ++ "/" ++ hexEncode hw
    ++ "?blSPL=" ++ spec_two_digit tcb.bootloader
    ++ "&teeSPL=" ++ spec_two_digit tcb.tee
    ++ "&snpSPL=" ++ spec_two_digit tcb.snp
    ++ "&ucodeSPL=" ++ spec_two_digit tcb.microcode

/-- Process-wide state visible to the verifier: only the compiled-in PEM
bundle.  The source has no other global, and this one is a constant. -/
structure ProcState where
  pem : List Certificate
deriving DecidableEq

/-- The process state at start-up: the compiled-in Genoa bundle. -/
def initProc : ProcState := ⟨GENOA_PEM⟩

/-- verify_attestation_report_raw as a state-passing computation: it reads
the bundle from the process state and writes nothing back. -/
def verify_raw_st (s : ProcState) (report : AttestationReport) (vcek : Certificate)
    (fail_on_purpose : Bool) : RustResult Unit × ProcState :=
  (verify_raw_of s.pem report vcek fail_on_purpose, s)

/-- Run a sequence of verification calls from a state, threading the state. -/
def runCalls : ProcState → List (AttestationReport × Certificate × Bool) → ProcState
  | s, [] => s
  | s, c :: cs => runCalls (verify_raw_st s c.1 c.2.1 c.2.2).2 cs

lemma get_cert_chain_of_genoa : get_cert_chain_of GENOA_PEM SEV_PROD_NAME = .ok genoaCa := rfl

lemma verify_raw_eq (r : AttestationReport) (v : Certificate) (t : Bool) :
    verify_attestation_report_raw r v t =
      match chainReportVerify ⟨genoaCa, v⟩ (tamper t r) with
      | .ok _ => .ok ()
      | .error e => .panic (.unwrapErr e) := rfl

lemma wrapInc_ne (a : Nat) : (a + 1) % 256 ≠ a := by omega

lemma tamper_true_meas (r : AttestationReport) :
    (tamper true r).measurement = r.measurement.set 0 ((r.measurement.getD 0 0 + 1) % 256) := rfl

lemma tamper_true_chip (r : AttestationReport) : (tamper true r).chip_id = r.chip_id := rfl

lemma tamper_true_tcb (r : AttestationReport) :
    (tamper true r).reported_tcb = r.reported_tcb := rfl

lemma tamper_true_algo (r : AttestationReport) :
    (tamper true r).signature_algo = r.signature_algo := rfl

lemma tamper_true_sig (r : AttestationReport) : (tamper true r).signature = r.signature := rfl

lemma tamper_changes_measurement (r : AttestationReport) (hm : r.measurement ≠ []) :
    (tamper true r).measurement ≠ r.measurement := by
  rw [tamper_true_meas]
  cases hml : r.measurement with
  | nil => exact absurd hml hm
  | cons a tl =>
    simp only [List.set_cons_zero, List.getD_cons_zero, ne_eq, List.cons.injEq, not_and]
    intro h
    exact absurd h (wrapInc_ne a)

lemma chainVerify_tamper (ch : FullChain) (r : AttestationReport)
    (hm : r.measurement ≠ [])
    (hok : chainReportVerify ch r = .ok ()) :
    chainReportVerify ch (tamper true r) = .error .SignatureInvalid := by
  unfold chainReportVerify at hok ⊢
  by_cases h1 : ¬ certSignedBy ch.ca.ark ch.ca.ark
  · rw [if_pos h1] at hok; simp at hok
  rw [if_neg h1] at hok ⊢
  by_cases h2 : ¬ certSignedBy ch.ca.ask ch.ca.ark
  · rw [if_pos h2] at hok; simp at hok
  rw [if_neg h2] at hok ⊢
  by_cases h3 : ¬ certSignedBy ch.vcek ch.ca.ask
  · rw [if_pos h3] at hok; simp at hok
  rw [if_neg h3] at hok ⊢
  by_cases h4 : ¬ (r.signature_algo = ECDSA_P384_ALGO)
  · rw [if_pos h4] at hok; simp at hok
  rw [if_neg h4] at hok
  rw [tamper_true_algo, if_neg h4]
  by_cases h5 : ¬ (r.signature = (ch.vcek.data.pubkey, reportSignedData r))
  · rw [if_pos h5] at hok; simp at hok
  push_neg at h5
  have hcond : ¬ ((tamper true r).signature
      = (ch.vcek.data.pubkey, reportSignedData (tamper true r))) := by
    rw [tamper_true_sig, h5]
    intro heq
    have h6 : reportSignedData r = reportSignedData (tamper true r) :=
      congrArg Prod.snd heq
    have h7 : r.measurement = (tamper true r).measurement :=
      congrArg (fun p => p.1) h6
    exact tamper_changes_measurement r hm h7.symm
  rw [if_pos hcond]

lemma runCalls_id (s : ProcState) (l : List (AttestationReport × Certificate × Bool)) :
    runCalls s l = s := by
  induction l generalizing s with
  | nil => rfl
  | cons c cs ih => exact ih s

lemma pad2_eq_spec (n : Nat) (h : n ≤ 99) : pad2 n = spec_two_digit n := by
  interval_cases n <;> rfl

/-- Claim C1 (amended): verify_attestation_report_raw returns normally
exactly when the combined chain validation and report authentication
succeed; on any failing check it aborts (unwrap), the abort payload carrying
that first failing check's typed reason — the reason is carried by a panic,
not by a returned Rejected value, and no failure is downgraded to success. -/
theorem verify_raw_panics_on_failure (r : AttestationReport) (v : Certificate) (t : Bool) :
    (verify_attestation_report_raw r v t = .ok () ↔
      chainReportVerify ⟨genoaCa, v⟩ (tamper t r) = .ok ()) ∧
    (∀ e, chainReportVerify ⟨genoaCa, v⟩ (tamper t r) = .error e →
      verify_attestation_report_raw r v t = .panic (.unwrapErr e)) := by
  cases h : chainReportVerify ⟨genoaCa, v⟩ (tamper t r) <;>
    simp [verify_raw_eq, h]

/-- Claim C1 witness: at the sample inputs, the untampered run returns
normally and the tampered run aborts with the typed signature failure. -/
theorem verify_raw_panics_on_failure_witness :
    verify_attestation_report_raw sampleReport sampleVcek false = .ok () ∧
    verify_attestation_report_raw sampleReport sampleVcek true
      = .panic (.unwrapErr .SignatureInvalid) :=
  ⟨(verify_raw_panics_on_failure sampleReport sampleVcek false).1.mpr rfl,
   (verify_raw_panics_on_failure sampleReport sampleVcek true).2 .SignatureInvalid rfl⟩

/-- Claim C1 counterexample: on a failing check the orchestrator does not
return a Rejected value — it aborts; at the concrete tampered sample input
the outcome is a panic carrying the signature failure, and in particular no
normal return of any kind occurs. -/
theorem verify_raw_no_rejected_return_cex :
    verify_attestation_report_raw sampleReport sampleVcek true
      = RustResult.panic (PanicInfo.unwrapErr VerifyError.SignatureInvalid) ∧
    verify_attestation_report_raw sampleReport sampleVcek true ≠ RustResult.ok () :=
  ⟨rfl, by decide⟩

/-- Claim C2 (amended): when the report parse boundary yields a typed
ParseError, verify_attestation_report aborts with that error as the panic
payload (the source unwraps the parse result), rather than returning the
ParseError to its caller; well-formed input proceeds to verification. -/
theorem parse_failure_aborts
    (parse_report : String → Except ParseError AttestationReport)
    (cert_from_der : List Nat → Except ParseError Certificate)
    (s : String) (v : List Nat) (t : Bool) (e : ParseError)
    (h : parse_report s = .error e) :
    verify_attestation_report parse_report cert_from_der s v t = .panic (.parseErr e) := by
  unfold verify_attestation_report
  rw [h]

/-- Claim C2 witness: a concrete malformed report input (the empty string,
rejected by the parse boundary) makes the call abort. -/
theorem parse_failure_aborts_witness :
    verify_attestation_report (fun _ => .error .malformed) (fun _ => .error .malformed)
      "" [] false = .panic (.parseErr .malformed) :=
  parse_failure_aborts (fun _ => .error .malformed) (fun _ => .error .malformed)
    "" [] false .malformed rfl

/-- Claim C2 counterexample: on the concrete malformed input the call's
outcome is a panic, so the claim that malformed input yields a returned
ParseError and never a panic fails. -/
theorem parse_failure_panic_cex :
    verify_attestation_report (fun _ => .error .malformed) (fun _ => .error .malformed)
      "" [] false = RustResult.panic (PanicInfo.parseErr ParseError.malformed) ∧
    verify_attestation_report (fun _ => .error .malformed) (fun _ => .error .malformed)
      "" [] false ≠ RustResult.ok () :=
  ⟨rfl, by decide⟩

/-- Claim C3: for the compiled-in sample report and sample leaf certificate,
end-to-end verification (chain validation plus report authentication)
returns Verified, and the raw orchestrator returns normally. -/
theorem sample_attestation_verifies :
    toResult (chainReportVerify ⟨genoaCa, sampleVcek⟩ sampleReport) = .Verified ∧
    verify_attestation_report_raw sampleReport sampleVcek false = .ok () :=
  ⟨rfl, rfl⟩

/-- Claim C4: for any report/leaf pair that verifies against the compiled-in
chain, the tamper-test perturbation (first measurement byte incremented with
wrapping) makes verification against the same unchanged leaf and chain yield
Rejected with reason SignatureInvalid, and the raw orchestrator abort with
that same typed reason. -/
theorem tampered_report_signature_invalid (r : AttestationReport) (v : Certificate)
    (hm : r.measurement ≠ [])
    (hok : chainReportVerify ⟨genoaCa, v⟩ r = .ok ()) :
    toResult (chainReportVerify ⟨genoaCa, v⟩ (tamper true r)) = .Rejected .SignatureInvalid ∧
    verify_attestation_report_raw r v true = .panic (.unwrapErr .SignatureInvalid) := by
  have h := chainVerify_tamper ⟨genoaCa, v⟩ r hm hok
  constructor
  · rw [h]; rfl
  · rw [verify_raw_eq, h]

/-- Claim C4 witness: the sample report verifies, and its tampered variant
is rejected with SignatureInvalid against the same leaf and chain. -/
theorem tampered_report_signature_invalid_witness :
    toResult (chainReportVerify ⟨genoaCa, sampleVcek⟩ (tamper true sampleReport))
      = .Rejected .SignatureInvalid ∧
    verify_attestation_report_raw sampleReport sampleVcek true
      = .panic (.unwrapErr .SignatureInvalid) :=
  tampered_report_signature_invalid sampleReport sampleVcek (by decide) rfl

/-- Claim C5: for the supported product the bundle holds exactly two
certificates and get_cert_chain takes the bundle's second entry as the root
(ARK) and its first entry as the intermediate (ASK); generally, from any
two-entry bundle the root is entry 1 and the intermediate entry 0. -/
theorem cert_chain_bundle_order (c0 c1 : Certificate) :
    GENOA_PEM = [askCert, arkCert] ∧
    GENOA_PEM.length = 2 ∧
    get_cert_chain SEV_PROD_NAME = .ok { ark := arkCert, ask := askCert } ∧
    get_cert_chain_of [c0, c1] SEV_PROD_NAME = .ok { ark := c1, ask := c0 } :=
  ⟨rfl, rfl, rfl, rfl⟩

/-- Claim C6 (amended): for every product name other than the supported one,
get_cert_chain aborts the process with the message naming the restriction —
a crash, not a returned typed UnsupportedProduct failure. -/
theorem unsupported_product_panics (pem : List Certificate) (name : String)
    (h : name ≠ SEV_PROD_NAME) :
    get_cert_chain_of pem name = .panic (.msg ("Only Genoa is supported at this time")) ∧
    get_cert_chain name = .panic (.msg ("Only Genoa is supported at this time")) := by
  constructor
  · unfold get_cert_chain_of
    rw [if_pos h]
  · unfold get_cert_chain get_cert_chain_of
    rw [if_pos h]

/-- Claim C6 witness: a concrete unsupported product name aborts. -/
theorem unsupported_product_panics_witness :
    get_cert_chain "Milan" = .panic (.msg ("Only Genoa is supported at this time")) :=
  (unsupported_product_panics GENOA_PEM "Milan" (by decide)).2

/-- Claim C6 counterexample: at the concrete unsupported product name the
loader's outcome is a panic (a crash), not a returned typed failure. -/
theorem unsupported_product_crash_cex :
    get_cert_chain "Milan"
      = RustResult.panic (PanicInfo.msg ("Only Genoa is supported at this time")) ∧
    get_cert_chain "Milan" ≠ RustResult.ok genoaCa :=
  ⟨rfl, by decide⟩

/-- Claim C7 (amended): request_vcek performs no product-name validation at
all — for every product name, supported or not, it issues exactly one
network request, to the URL built from that name, and a successful response
is returned as the certificate bytes. -/
theorem request_vcek_always_requests (net : String → Option (List Nat))
    (chip_id : List Nat) (tcb : TcbVersion) (name : String) :
    (request_vcek net chip_id tcb name).2 = [request_vcek_url chip_id tcb name] ∧
    (∀ bytes, net (request_vcek_url chip_id tcb name) = some bytes →
      (request_vcek net chip_id tcb name).1 = .ok bytes) := by
  unfold request_vcek
  cases h : net (request_vcek_url chip_id tcb name) <;> simp [h]

/-- Claim C7 witness: a concrete call with an unsupported product name still
issues its network request and returns the response body. -/
theorem request_vcek_always_requests_witness :
    (request_vcek (fun _ => some []) (List.replicate 64 0) ⟨0, 0, 0, 0⟩ "Milan").1
      = .ok [] ∧
    (request_vcek (fun _ => some []) (List.replicate 64 0) ⟨0, 0, 0, 0⟩ "Milan").2
      = [request_vcek_url (List.replicate 64 0) ⟨0, 0, 0, 0⟩ "Milan"] :=
  ⟨(request_vcek_always_requests (fun _ => some []) (List.replicate 64 0)
      ⟨0, 0, 0, 0⟩ "Milan").2 [] rfl,
   (request_vcek_always_requests (fun _ => some []) (List.replicate 64 0)
      ⟨0, 0, 0, 0⟩ "Milan").1⟩

/-- Claim C7 counterexample: for the concrete unsupported product name the
call issues a network request (the request list is nonempty) and its failure
is the transport failure raised after that request — no UnsupportedProduct
failure happens before network access. -/
theorem unsupported_product_fetch_cex :
    (request_vcek (fun _ => none) (List.replicate 64 0) ⟨0, 0, 0, 0⟩ "Milan").2 ≠ [] ∧
    (request_vcek (fun _ => none) (List.replicate 64 0) ⟨0, 0, 0, 0⟩ "Milan").1
      = .panic (.msg ("request failed")) :=
  ⟨by decide, rfl⟩

/-- Claim C8 (amended): the fetch issues exactly one HTTP GET, to exactly
the documented URL template, with each firmware component rendered as a
zero-padded decimal of minimum width two; when every component is at most
99 this coincides with the spec's two-digit rendering. -/
theorem vcek_url_matches_spec (net : String → Option (List Nat)) (chip_id : List Nat)
    (tcb : TcbVersion) (name : String)
    (hb : tcb.bootloader ≤ 99) (ht : tcb.tee ≤ 99)
    (hs : tcb.snp ≤ 99) (hu : tcb.microcode ≤ 99) :
    request_vcek_url chip_id tcb name = spec_vcek_url name chip_id tcb ∧
    (request_vcek net chip_id tcb name).2 = [spec_vcek_url name chip_id tcb] := by
  have hurl : request_vcek_url chip_id tcb name = spec_vcek_url name chip_id tcb := by
    unfold request_vcek_url spec_vcek_url KDS_CERT_SITE KDS_VCEK
    rw [pad2_eq_spec _ hb, pad2_eq_spec _ ht, pad2_eq_spec _ hs, pad2_eq_spec _ hu]
  refine ⟨hurl, ?_⟩
  rw [← hurl]
  unfold request_vcek
  cases h : net (request_vcek_url chip_id tcb name) <;> simp [h]

/-- Claim C8 witness: at the sample chip id and TCB the code's URL equals
the spec's two-digit template instance. -/
theorem vcek_url_matches_spec_witness :
    request_vcek_url sampleChipId sampleTcb SEV_PROD_NAME
      = spec_vcek_url SEV_PROD_NAME sampleChipId sampleTcb :=
  (vcek_url_matches_spec (fun _ => none) sampleChipId sampleTcb SEV_PROD_NAME
    (by decide) (by decide) (by decide) (by decide)).1

/-- Claim C8 counterexample: a firmware component of 100 (a valid u8) is
rendered with three digits, so the URL is not built from two-digit
renderings for every firmware bundle. -/
theorem vcek_url_three_digit_cex :
    request_vcek_url (List.replicate 64 0) ⟨100, 0, 0, 0⟩ "Genoa"
      = "https://kdsintf.amd.com/vcek/v1/Genoa/"
        ++ String.mk (List.replicate 128 ('0'))
        ++ "?blSPL=100&teeSPL=00&snpSPL=00&ucodeSPL=00" ∧
    (pad2 100).length = 3 := by
  constructor <;> decide

/-- Claim C9: the tamper path is a pure function producing a new report
value — with the flag off the report is returned exactly as given; with the
flag on the result differs from the input only in the first measurement
byte, incremented with wrapping, every other field and every other
measurement position unchanged, and the result is a distinct value rather
than a corruption of the input. -/
theorem tamper_frame (r : AttestationReport) (hm : r.measurement ≠ []) :
    tamper false r = r ∧
    (tamper true r).chip_id = r.chip_id ∧
    (tamper true r).reported_tcb = r.reported_tcb ∧
    (tamper true r).signature_algo = r.signature_algo ∧
    (tamper true r).signature = r.signature ∧
    (tamper true r).measurement.length = r.measurement.length ∧
    (tamper true r).measurement.getD 0 0 = (r.measurement.getD 0 0 + 1) % 256 ∧
    (∀ i, i ≠ 0 → (tamper true r).measurement.getD i 0 = r.measurement.getD i 0) ∧
    tamper true r ≠ r := by
  obtain ⟨a, tl, hml⟩ : ∃ a tl, r.measurement = a :: tl := by
    cases h : r.measurement with
    | nil => exact absurd h hm
    | cons a tl => exact ⟨a, tl, rfl⟩
  refine ⟨rfl, rfl, rfl, rfl, rfl, ?_, ?_, ?_, ?_⟩
  · rw [tamper_true_meas]
    exact List.length_set r.measurement 0 _
  · rw [tamper_true_meas, hml]
    simp
  · intro i hi
    rw [tamper_true_meas, hml]
    cases i with
    | zero => exact absurd rfl hi
    | succ j => simp
  · intro heq
    exact tamper_changes_measurement r hm (congrArg AttestationReport.measurement heq)

/-- Claim C9 witness: at the sample report the tampered copy keeps position
1 and wraps position 0. -/
theorem tamper_frame_witness :
    (tamper true sampleReport).measurement.getD 1 0
      = sampleReport.measurement.getD 1 0 ∧
    (tamper true sampleReport).measurement.getD 0 0
      = (sampleReport.measurement.getD 0 0 + 1) % 256 :=
  ⟨(tamper_frame sampleReport (by decide)).2.2.2.2.2.2.2.1 1 (by decide),
   (tamper_frame sampleReport (by decide)).2.2.2.2.2.2.1⟩

/-- Claim C10: verification is deterministic and stateless — after any
sequence of prior verification calls, a call on the same report, leaf
certificate and tamper flag has exactly the outcome it has on the freshly
started process, the process state (only the compiled-in bundle) is left
unchanged, and the stateful run agrees with the pure function. -/
theorem verify_deterministic (prior : List (AttestationReport × Certificate × Bool))
    (r : AttestationReport) (v : Certificate) (t : Bool) :
    (verify_raw_st (runCalls initProc prior) r v t).1 = (verify_raw_st initProc r v t).1 ∧
    (verify_raw_st (runCalls initProc prior) r v t).2 = runCalls initProc prior ∧
    (verify_raw_st initProc r v t).1 = verify_attestation_report_raw r v t := by
  rw [runCalls_id]
  exact ⟨rfl, rfl, rfl⟩

end SevAttest
